import Mathlib

/-!
Shallow embedding and verification of the worker-side runtime in
`hatchet_sdk/v2/runtime/worker.py` and `hatchet_sdk/v2/runtime/utils.py`.

Each asynchronous loop of the source is embedded as a pure Lean function over
an explicit schedule of the events the cooperative scheduler can deliver to it
(item arrival versus timeout, RPC success versus failure, stream exhaustion
versus stream error); the function computes the trace of yielded elements
together with the successor state.  External collaborators (the `grpc`
package, `asyncio` primitives) are modelled only through the exact behaviour
the embedded code paths rely on, documented at each definition.
-/

namespace HatchetModel

/-! ### Stream combinators (`utils.py`) -/

/-- Trace semantics of `InterruptableAgen agen interrupt timeout` (`utils.py`
lines 14 to 47).  The first argument is the schedule of scheduler events, one
entry per iteration of the `while True` loop: the entry's first component is
`true` exactly when `asyncio.wait_for(queue.get(), timeout)` raised
`asyncio.TimeoutError` at this iteration (suppressed by the first
`with suppress` block), and its second component is the result of
`interrupt.get_nowait()` at this iteration (`none` meaning
`asyncio.QueueEmpty`, suppressed by the second block).  The second argument is
the list of source items the internal producer task still has to deliver,
followed implicitly by the `StopAsyncIteration` sentinel; the internal
`asyncio.Queue` preserves their order.  The result is the list of values the
derived generator yields: `Sum.inl` for a source item, `Sum.inr` for an
interrupt value.  An empty remaining schedule models external cancellation of
a still-running loop.  Control flow mirrors the source exactly: a non-timeout
round takes the next queue entry and breaks on the sentinel (skipping the
interrupt check), otherwise it yields the item and then falls through to the
interrupt check; a timeout round goes straight to the interrupt check; a
successful interrupt check yields the interrupt value and breaks. -/
def InterruptableAgen {T I : Type} :
    List (Bool × Option I) → List T → List (T ⊕ I)
  | [], _ => []
  | (tmo, iv) :: rest, pending =>
    if tmo then
      match iv with
      | some v => [Sum.inr v]
      | none => InterruptableAgen rest pending
    else
      match pending with
      | [] => []
      | t :: ts =>
        Sum.inl t ::
          (match iv with
            | some v => [Sum.inr v]
            | none => InterruptableAgen rest ts)

/-- Outcome of draining one async generator produced by `agen_factory` inside
`ForeverAgen` (`utils.py` lines 53 to 75): either the generator was exhausted
normally after yielding `items`, or iterating it raised exception `e` after
yielding `items`. -/
inductive AgenOutcome (T E : Type) where
  | exhausted : List T → AgenOutcome T E
  | raised : List T → E → AgenOutcome T E
deriving DecidableEq

/-- Trace semantics of `ForeverAgen agen_factory exceptions` (`utils.py` lines
53 to 75).  `factory round` is the outcome of draining the generator returned
by the `round`-th invocation of `agen_factory`; `whitelisted` is membership in
the `exceptions` tuple.  The two `Nat` arguments are the index of the first
round and the number of rounds observed before observation stops; the body is
a `while True` loop with no `break`, so the model has no normal-termination
outcome at all.  The result pairs the trace of yielded elements (`Sum.inl`
for items, `Sum.inr` for whitelisted exceptions yielded at line 73) with
`some e` when a non-whitelisted exception `e` was re-raised (line 75,
abnormal termination) and `none` when the loop was still running after the
observed rounds. -/
def ForeverAgen {T E : Type} (factory : Nat → AgenOutcome T E)
    (whitelisted : E → Bool) : Nat → Nat → List (T ⊕ E) × Option E
  | _, 0 => ([], none)
  | round, n + 1 =>
    match factory round with
    | .exhausted items =>
      let rest := ForeverAgen factory whitelisted (round + 1) n
      (items.map Sum.inl ++ rest.1, rest.2)
    | .raised items e =>
      if whitelisted e then
        let rest := ForeverAgen factory whitelisted (round + 1) n
        (items.map Sum.inl ++ Sum.inr e :: rest.1, rest.2)
      else
        (items.map Sum.inl, some e)

/-- Class of the queue passed to `QueueAgen`, mirroring the `isinstance`
dispatch in `utils.py` lines 81 to 93: `asyncio.Queue`, `queue.Queue`,
`multiprocessing.queues.Queue`, or any other class, carried with its type
name.  The three supported classes are pairwise unrelated in Python's class
hierarchy, so the dispatch order is immaterial. -/
inductive QueueKind where
  | asyncioQueue
  | threadQueue
  | mpQueue
  | unsupported (typeName : String)
deriving DecidableEq

/-- A queue value as `QueueAgen` sees it: its runtime class and the items it
holds, in arrival order. -/
structure PyQueue (T : Type) where
  kind : QueueKind
  items : List T
deriving DecidableEq

/-- Draining loop of one supported branch of `QueueAgen`: each iteration
yields the next queued item and, when `ack` is set, calls
`inbound.task_done()` afterwards.  Returns the yielded items together with
the number of `task_done()` acknowledgements issued. -/
def drainLoop {T : Type} (ack : Bool) : List T → List T × Nat
  | [] => ([], 0)
  | t :: ts =>
    let rest := drainLoop ack ts
    (t :: rest.1, (if ack then 1 else 0) + rest.2)

/-- Semantics of `QueueAgen inbound` (`utils.py` lines 78 to 93) observed
until the queue is empty: the `asyncio.Queue` and `queue.Queue` branches
yield each item and acknowledge it with `task_done()`, the
`multiprocessing.queues.Queue` branch yields without acknowledgement, and any
other queue class raises `TypeError` before yielding any element (the
`isinstance` chain runs before the first `yield`). -/
def QueueAgen {T : Type} (inbound : PyQueue T) : Except String (List T × Nat) :=
  match inbound.kind with
  | .asyncioQueue => .ok (drainLoop true inbound.items)
  | .threadQueue => .ok (drainLoop true inbound.items)
  | .mpQueue => .ok (drainLoop false inbound.items)
  | .unsupported tn => .error ("unsupported queue type: " ++ tn)

/-- Decidable equality for `Except`, used to evaluate run results on concrete
inputs. -/
instance exceptDecEq {ε α : Type} [DecidableEq ε] [DecidableEq α] :
    DecidableEq (Except ε α)
  | .ok x, .ok y =>
    if h : x = y then .isTrue (congrArg Except.ok h)
    else .isFalse fun hc => h (Except.ok.inj hc)
  | .error x, .error y =>
    if h : x = y then .isTrue (congrArg Except.error h)
    else .isFalse fun hc => h (Except.error.inj hc)
  | .ok _, .error _ => .isFalse fun hc => Except.noConfusion hc
  | .error _, .ok _ => .isFalse fun hc => Except.noConfusion hc

/-! ### Worker runtime (`worker.py`) -/

/-- Python exception values that the embedded `worker.py` code paths can
produce or observe. -/
inductive PyExc where
  | cancelledError
  | attributeError (msg : String)
  | aioRpcError
deriving DecidableEq

/-- The `WorkerStatus` enum of `worker.py` lines 52 to 57. -/
inductive WorkerStatus where
  | UNKNOWN
  | REGISTERED
  | HEALTHY
  | UNHEALTHY
deriving DecidableEq

/-- Attribute surface of the external `grpc` package that the heartbeat
handler can name: the package exports `RpcError` (and the `aio` submodule)
but defines no attribute `RpcErrors`, which is the name spelled at
`worker.py` line 85. -/
def grpcHasAttr (attr : String) : Bool :=
  attr == "RpcError" || attr == "aio"

/-- The message of the `AttributeError` Python raises when the handler class
expression `grpc.RpcErrors` at `worker.py` line 85 is evaluated. -/
def rpcErrorsMsg : String := "module grpc has no attribute RpcErrors"

/-- Mutable state of `_HeartBeater` (`worker.py` lines 60 to 68):
`last_heartbeat` is a unix timestamp with `-1` meaning never, `missed` and
`error` are the cumulative counters, and `hbStatus` is the `status` attribute
that line 90 creates on the `_HeartBeater` object itself (note: on the
heartbeater, not on the worker; `_HeartBeater.__init__` defines no such
attribute, so it starts absent). -/
structure HBState where
  last_heartbeat : Int
  missed : Nat
  error : Nat
  hbStatus : Option WorkerStatus
deriving DecidableEq

/-- Heartbeater state right after `_HeartBeater.__init__`. -/
def initHB : HBState :=
  { last_heartbeat := -1, missed := 0, error := 0, hbStatus := none }

/-- Result of one iteration of the heartbeat loop: either the loop reached
`asyncio.sleep` and continues with the new state, or an uncaught exception
escaped the loop body (terminating the `heartbeat()` coroutine through its
`finally` block, which only logs). -/
inductive HBStep where
  | next : HBState → HBStep
  | raised : PyExc → HBState → HBStep
deriving DecidableEq

/-- The timestamp bookkeeping of `_HeartBeater.heartbeat` (`worker.py` lines
88 to 94), reached when the loop body did not raise: on the first round
(`last_heartbeat < 0`) record `now` and set the heartbeater's own `status`
attribute to `HEALTHY`; on every later round compare
`proto.heartbeatAt.seconds - last_heartbeat` (which equals
`now - last_heartbeat`) against the configured interval and increment
`missed` when it is larger.  No branch assigns `last_heartbeat` after the
first round. -/
def heartbeatRecord (hbInterval : Int) (s : HBState) (now : Int) : HBStep :=
  if s.last_heartbeat < 0 then
    .next { s with last_heartbeat := now, hbStatus := some WorkerStatus.HEALTHY }
  else
    if now - s.last_heartbeat > hbInterval then
      .next { s with missed := s.missed + 1 }
    else
      .next s

/-- One iteration of the `while True` loop of `_HeartBeater.heartbeat`
(`worker.py` lines 74 to 95).  `rpcFails` states whether
`self.stub.Heartbeat(...)` raised `grpc.RpcError`.  When it does, Python
evaluates the handler class expression `grpc.RpcErrors` (line 85) before the
handler body can run; since the `grpc` package has no such attribute, an
`AttributeError` replaces the transport error and propagates, so
`self.error += 1` is never executed and the loop terminates.  (Had the
attribute existed, the handler would count the error and fall through to the
timestamp bookkeeping.) -/
def heartbeatIteration (hbInterval : Int) (s : HBState) (now : Int)
    (rpcFails : Bool) : HBStep :=
  if rpcFails then
    if grpcHasAttr "RpcErrors" then
      heartbeatRecord hbInterval { s with error := s.error + 1 } now
    else
      .raised (.attributeError rpcErrorsMsg) s
  else
    heartbeatRecord hbInterval s now

/-- Runs the heartbeat loop over a list of per-iteration inputs
`(now, rpcFails)`, threading the state; stops early with the offending
exception and the state at that moment when an iteration raises. -/
def hbLoop (hbInterval : Int) :
    List (Int × Bool) → HBState → Except (PyExc × HBState) HBState
  | [], s => .ok s
  | (now, fails) :: rest, s =>
    match heartbeatIteration hbInterval s now fails with
    | .next s2 => hbLoop hbInterval rest s2
    | .raised e s2 => .error (e, s2)

/-- The fields of `Worker` that the lifecycle claims are about (`worker.py`
lines 137 to 155): the worker's own `status`, the dispatcher-assigned `id`
(absent until registration), and the owned heartbeater state. -/
structure WorkerState where
  status : WorkerStatus
  id : Option String
  hb : HBState
deriving DecidableEq

/-- Worker state right after `Worker.__init__`. -/
def initWorker : WorkerState :=
  { status := WorkerStatus.UNKNOWN, id := none, hb := initHB }

/-- `Worker._register` (`worker.py` lines 157 to 166) after a successful
`Register` call: store the `workerId` of the response and set the worker's
status to `REGISTERED`. -/
def register (w : WorkerState) (respWorkerId : String) : WorkerState :=
  { w with id := some respWorkerId, status := WorkerStatus.REGISTERED }

/-- The polling barrier of `Worker.start` (`worker.py` lines 176 to 179)
interleaved with the heartbeat task it just spawned: after each heartbeat
iteration the poll observes `self._heartbeater.last_heartbeat > 0` and
`start()` returns with the worker state of that moment.  If an iteration
raises, the heartbeat task dies with `last_heartbeat` still `-1`, the barrier
can never be released, and `start()` never returns (`none`); an exhausted
input list likewise means `start()` is still polling. -/
def startLoop (hbInterval : Int) :
    List (Int × Bool) → WorkerState → Option WorkerState
  | [], _ => none
  | (now, fails) :: rest, w =>
    match heartbeatIteration hbInterval w.hb now fails with
    | .raised _ _ => none
    | .next s2 =>
      if s2.last_heartbeat > 0 then some { w with hb := s2 }
      else startLoop hbInterval rest { w with hb := s2 }

/-- `Worker.start` (`worker.py` lines 168 to 179): synchronous registration,
then spawn the heartbeat task and poll until the heartbeater records a
timestamp.  `iters` is the schedule of heartbeat iterations the scheduler
runs while `start()` polls; the result is the worker state at the moment
`start()` returns, or `none` when it never does. -/
def start (hbInterval : Int) (respWorkerId : String)
    (iters : List (Int × Bool)) : Option WorkerState :=
  startLoop hbInterval iters (register initWorker respWorkerId)

/-- State of the `_Listner` object (`worker.py` lines 101 to 107): the
reconnect attempt counter. -/
structure ListenerState where
  attempt : Nat
deriving DecidableEq

/-- Outcome of one opened `ListenV2` server stream inside `_Listner.listen`:
either the stream was exhausted normally after yielding `events`, or the call
or the iteration over it raised `grpc.aio.AioRpcError` after yielding
`events`. -/
inductive StreamOutcome (A : Type) where
  | exhausted : List A → StreamOutcome A
  | failed : List A → StreamOutcome A
deriving DecidableEq

/-- The events a stream delivered before ending, however it ended. -/
def StreamOutcome.events {A : Type} : StreamOutcome A → List A
  | .exhausted evs => evs
  | .failed evs => evs

/-- Whether the stream ended by normal exhaustion. -/
def StreamOutcome.isExhausted {A : Type} : StreamOutcome A → Bool
  | .exhausted _ => true
  | .failed _ => false

/-- One iteration of the `while True` loop of `_Listner.listen` (`worker.py`
lines 109 to 134): the events of the opened stream are yielded one by one in
arrival order; when the stream is exhausted normally the loop runs
`self.attempt += 1` (line 125) and re-enters; when `grpc.aio.AioRpcError` is
raised the handler runs `logger.warning(e)` (line 127) and the loop re-enters
with `attempt` unchanged, since the increment sits inside the `try` block
after the `async for`.  Returns the yielded events, the successor state, and
whether the warning was logged. -/
def listenIteration {A : Type} (st : ListenerState) :
    StreamOutcome A → List A × ListenerState × Bool
  | .exhausted events => (events, { attempt := st.attempt + 1 }, false)
  | .failed events => (events, st, true)

/-- Runs the listener loop over the outcomes of the successive streams it
opens, concatenating the yielded events and threading the state. -/
def listenRun {A : Type} (st : ListenerState) :
    List (StreamOutcome A) → List A × ListenerState
  | [] => ([], st)
  | o :: rest =>
    let step := listenIteration st o
    let tail := listenRun step.2.1 rest
    (step.1 ++ tail.1, tail.2)

/-- State of one of the two spawned tasks at the moment `shutdown()` is
called.  In this program a task is either still running or already dead from
an uncaught exception: the heartbeat loop and the listener relay are
`while True` loops that never return normally, and nothing else cancels
them. -/
inductive TaskState where
  | running
  | failed : PyExc → TaskState
deriving DecidableEq

/-- Whether the task is still running (so a cancellation request takes
effect on it). -/
def TaskState.isRunning : TaskState → Bool
  | .running => true
  | .failed _ => false

/-- Observable effects of one call to `Worker.shutdown`. -/
structure ShutdownResult where
  closeCalls : Nat
  hbCancelRequested : Bool
  lsCancelRequested : Bool
  raisedExc : Option PyExc
deriving DecidableEq

/-- Exception with which `await tg` completes for
`tg = asyncio.gather(self._heartbeat_task, self._listener_task)` (default
`return_exceptions`, i.e. `False`) after `tg.cancel()`: the done callback of
a child that already finished with an exception was scheduled at gather
construction, in argument order, and the first such callback sets the gather
future to that exception; otherwise the still-running children get cancelled
and the gather future completes with `CancelledError`. -/
def gatherAwait : TaskState → TaskState → PyExc
  | .failed e, _ => e
  | .running, .failed e => e
  | .running, .running => .cancelledError

/-- `Worker.shutdown` (`worker.py` lines 181 to 188): build the gather
future, request its cancellation (which requests cancellation of every child
that is not yet done), call `self.outbound.close()` exactly once, then await
the gather; an `asyncio.CancelledError` from the await is caught and logged,
any other exception escapes `shutdown()`. -/
def shutdown (hb ls : TaskState) : ShutdownResult :=
  let exc := gatherAwait hb ls
  { closeCalls := 1
    hbCancelRequested := hb.isRunning
    lsCancelRequested := ls.isRunning
    raisedExc := if exc = PyExc.cancelledError then none else some exc }

/-! ### Theorems -/

/-- Helper: `startLoop` only ever rewrites the heartbeater sub-state; the
worker's `status` and `id` fields are untouched by the polling barrier. -/
theorem startLoop_preserves_status_id (hbInterval : Int) :
    ∀ (iters : List (Int × Bool)) (w w2 : WorkerState),
      startLoop hbInterval iters w = some w2 →
        w2.status = w.status ∧ w2.id = w.id := by
  intro iters
  induction iters with
  | nil =>
    intro w w2 h
    simp [startLoop] at h
  | cons p rest ih =>
    intro w w2 h
    obtain ⟨now, fails⟩ := p
    rw [startLoop] at h
    cases heq : heartbeatIteration hbInterval w.hb now fails with
    | raised e s2 =>
      rw [heq] at h
      have h2 : (none : Option WorkerState) = some w2 := h
      simp at h2
    | next s2 =>
      rw [heq] at h
      have h2 : (if s2.last_heartbeat > 0 then some { w with hb := s2 }
          else startLoop hbInterval rest { w with hb := s2 }) = some w2 := h
      by_cases hpos : s2.last_heartbeat > 0
      · rw [if_pos hpos] at h2
        injection h2 with h3
        subst h3
        exact ⟨rfl, rfl⟩
      · rw [if_neg hpos] at h2
        exact ih { w with hb := s2 } w2 h2

/-- C1: whenever `Worker.start()` returns, the worker's status is still
`REGISTERED`, never `HEALTHY`, and `id` holds the workerId of the
registration response.  This refutes the claimed HEALTHY postcondition:
`worker.py` line 90 assigns `WorkerStatus.HEALTHY` to the `_HeartBeater`'s
own `status` attribute instead of the worker's, and no other code path ever
sets the worker's status to `HEALTHY`. -/
theorem start_returns_with_status_registered (hbInterval : Int)
    (respWorkerId : String) (iters : List (Int × Bool)) (w : WorkerState)
    (h : start hbInterval respWorkerId iters = some w) :
    w.status = WorkerStatus.REGISTERED ∧ w.status ≠ WorkerStatus.HEALTHY ∧
      w.id = some respWorkerId := by
  rw [start] at h
  have h2 := startLoop_preserves_status_id hbInterval iters _ _ h
  simp [register, initWorker] at h2
  refine ⟨h2.1, ?_, h2.2⟩
  rw [h2.1]
  decide

/-- Witness for C1: a run with workerId `"w1"` and one successful heartbeat
round at time 100. -/
theorem start_registered_witness :
    ({ status := WorkerStatus.REGISTERED, id := some "w1",
        hb := { last_heartbeat := 100, missed := 0, error := 0,
                hbStatus := some WorkerStatus.HEALTHY } } : WorkerState).status
        = WorkerStatus.REGISTERED ∧
      ({ status := WorkerStatus.REGISTERED, id := some "w1",
          hb := { last_heartbeat := 100, missed := 0, error := 0,
                  hbStatus := some WorkerStatus.HEALTHY } } : WorkerState).status
        ≠ WorkerStatus.HEALTHY ∧
      ({ status := WorkerStatus.REGISTERED, id := some "w1",
          hb := { last_heartbeat := 100, missed := 0, error := 0,
                  hbStatus := some WorkerStatus.HEALTHY } } : WorkerState).id
        = some "w1" :=
  start_returns_with_status_registered 4 "w1" [(100, false)]
    { status := WorkerStatus.REGISTERED, id := some "w1",
      hb := { last_heartbeat := 100, missed := 0, error := 0,
              hbStatus := some WorkerStatus.HEALTHY } } (by decide)

/-- C2 counterexample: the claim fails as universally stated.  After
`start()` a later heartbeat round whose RPC fails kills the heartbeat task
with an `AttributeError` (first conjunct); calling `shutdown()` in that state
re-raises that `AttributeError` out of `shutdown()` instead of returning
normally (second conjunct), because only `asyncio.CancelledError` is caught
at line 187. -/
theorem shutdown_raises_after_heartbeat_death :
    heartbeatIteration 4
        { last_heartbeat := 100, missed := 0, error := 0,
          hbStatus := some WorkerStatus.HEALTHY } 104 true =
      HBStep.raised (PyExc.attributeError rpcErrorsMsg)
        { last_heartbeat := 100, missed := 0, error := 0,
          hbStatus := some WorkerStatus.HEALTHY } ∧
    (shutdown (TaskState.failed (PyExc.attributeError rpcErrorsMsg))
        TaskState.running).raisedExc = some (PyExc.attributeError rpcErrorsMsg) := by
  constructor <;> decide

/-- C2 amended: `shutdown()` always closes the outbound channel exactly once,
and when both internal tasks are still running at the moment of the call it
requests cancellation of both and returns normally, the resulting
`CancelledError` being suppressed; only a task that already died with a
non-cancellation exception makes `shutdown()` re-raise. -/
theorem shutdown_closes_once_and_suppresses_cancellation (hb ls : TaskState) :
    (shutdown hb ls).closeCalls = 1 ∧
      (hb = TaskState.running → ls = TaskState.running →
        shutdown hb ls =
          { closeCalls := 1, hbCancelRequested := true,
            lsCancelRequested := true, raisedExc := none }) := by
  constructor
  · rfl
  · intro h1 h2
    subst h1
    subst h2
    rfl

/-- Witness for the amended C2: both tasks still running. -/
theorem shutdown_suppression_witness :
    (shutdown TaskState.running TaskState.running).closeCalls = 1 ∧
      shutdown TaskState.running TaskState.running =
        { closeCalls := 1, hbCancelRequested := true,
          lsCancelRequested := true, raisedExc := none } := by
  have h := shutdown_closes_once_and_suppresses_cancellation
    TaskState.running TaskState.running
  exact ⟨h.1, h.2 rfl rfl⟩

/-- C3: a heartbeat round whose `Heartbeat` RPC raises a transport error does
not increment the error counter and does not continue the loop; instead the
handler class expression `grpc.RpcErrors` (a nonexistent attribute, the real
class is `grpc.RpcError`) raises `AttributeError`, which terminates the
heartbeat loop with the state unchanged. -/
theorem heartbeat_rpc_failure_kills_loop (hbInterval : Int) (s : HBState)
    (now : Int) :
    heartbeatIteration hbInterval s now true =
      HBStep.raised (PyExc.attributeError rpcErrorsMsg) s := by
  have h : grpcHasAttr "RpcErrors" = false := by decide
  simp [heartbeatIteration, h]

/-- Witness for C3 at a concrete state and time. -/
theorem heartbeat_rpc_failure_witness :
    heartbeatIteration 4 initHB 100 true =
      HBStep.raised (PyExc.attributeError rpcErrorsMsg) initHB :=
  heartbeat_rpc_failure_kills_loop 4 initHB 100

/-- C4 counterexample: with heartbeat interval 4 and three successful rounds
at times 100, 104 and 108, each consecutive gap is exactly 4, so under the
claim (recorded timestamp updated every round) no gap exceeds the interval
and `missed` would stay 0 with the recorded timestamp ending at 108.  The
code instead leaves `last_heartbeat` at 100 forever and counts round three
(gap 108 - 100 = 8 > 4) as missed. -/
theorem heartbeat_gap_counterexample :
    hbLoop 4 [(100, false), (104, false), (108, false)] initHB =
      Except.ok { last_heartbeat := 100, missed := 1, error := 0,
                  hbStatus := some WorkerStatus.HEALTHY } ∧
    hbLoop 4 [(100, false), (104, false), (108, false)] initHB ≠
      Except.ok { last_heartbeat := 108, missed := 0, error := 0,
                  hbStatus := some WorkerStatus.HEALTHY } := by
  constructor <;> decide

/-- C4 amended: on every successful round after the first, the heartbeater
compares `now` against the timestamp recorded at the *first* round (which is
never updated again, as the result's unchanged `last_heartbeat` field shows)
and increments `missed` exactly when that gap exceeds the configured
interval. -/
theorem heartbeat_gap_vs_first_timestamp (hbInterval : Int) (s : HBState)
    (now : Int) (h : 0 ≤ s.last_heartbeat) :
    heartbeatIteration hbInterval s now false =
      HBStep.next
        (if now - s.last_heartbeat > hbInterval then
          { s with missed := s.missed + 1 }
        else s) := by
  have hlt : ¬ s.last_heartbeat < 0 := not_lt.mpr h
  show heartbeatRecord hbInterval s now = _
  rw [heartbeatRecord, if_neg hlt]
  rcases lt_or_le hbInterval (now - s.last_heartbeat) with hgap | hgap
  · rw [if_pos hgap, if_pos hgap]
  · rw [if_neg (not_lt.mpr hgap), if_neg (not_lt.mpr hgap)]

/-- Witness for the amended C4: first timestamp 100, round at 108 with
interval 4 increments `missed` and keeps `last_heartbeat` at 100. -/
theorem heartbeat_gap_witness :
    heartbeatIteration 4
        { last_heartbeat := 100, missed := 0, error := 0,
          hbStatus := some WorkerStatus.HEALTHY } 108 false =
      HBStep.next
        { last_heartbeat := 100, missed := 1, error := 0,
          hbStatus := some WorkerStatus.HEALTHY } := by
  have h := heartbeat_gap_vs_first_timestamp 4
    { last_heartbeat := 100, missed := 0, error := 0,
      hbStatus := some WorkerStatus.HEALTHY } 108 (by decide)
  rw [h]
  decide

/-- C5 counterexample: a stream that fails with a transport error leaves the
reconnect attempt counter unchanged (it stays 0, not 1 as the claim
requires); the increment at `worker.py` line 125 runs only after normal
exhaustion of the stream. -/
theorem listener_error_does_not_increment :
    listenIteration { attempt := 0 } (StreamOutcome.failed ([] : List Nat)) =
        ([], { attempt := 0 }, true) ∧
      (listenIteration { attempt := 0 }
          (StreamOutcome.failed ([] : List Nat))).2.1.attempt ≠ 1 := by
  constructor <;> decide

/-- C5 amended: on a stream-level transport failure the listener logs the
warning and re-enters the loop with the attempt counter unchanged (third
conjunct); across any sequence of streams the counter grows by exactly the
number of *normally exhausted* streams (first conjunct), while all events of
all streams are yielded in arrival order (second conjunct). -/
theorem listener_attempt_counts_exhaustions {A : Type} (st : ListenerState)
    (outcomes : List (StreamOutcome A)) :
    (listenRun st outcomes).2.attempt =
        st.attempt + outcomes.countP StreamOutcome.isExhausted ∧
      (listenRun st outcomes).1 =
        (outcomes.map StreamOutcome.events).flatten ∧
      ∀ events : List A,
        listenIteration st (StreamOutcome.failed events) = (events, st, true) := by
  refine ⟨?_, ?_, fun events => rfl⟩
  · induction outcomes generalizing st with
    | nil => simp [listenRun]
    | cons o rest ih =>
      cases o with
      | exhausted evs =>
        simp [listenRun, listenIteration, List.countP_cons,
          StreamOutcome.isExhausted, ih]
        omega
      | failed evs =>
        simp [listenRun, listenIteration, List.countP_cons,
          StreamOutcome.isExhausted, ih]
  · induction outcomes generalizing st with
    | nil => simp [listenRun]
    | cons o rest ih =>
      cases o with
      | exhausted evs =>
        simp [listenRun, listenIteration, StreamOutcome.events, ih]
      | failed evs =>
        simp [listenRun, listenIteration, StreamOutcome.events, ih]

/-- Witness for the amended C5 on a concrete schedule: one exhausted stream
with events `[1, 2]` followed by one failed stream with events `[3]`. -/
theorem listener_counts_witness :
    (listenRun { attempt := 0 }
        [StreamOutcome.exhausted [1, 2], StreamOutcome.failed [3]]).2.attempt =
        ({ attempt := 0 } : ListenerState).attempt +
          List.countP StreamOutcome.isExhausted
            [StreamOutcome.exhausted [1, 2], StreamOutcome.failed ([3] : List Nat)] ∧
      (listenRun { attempt := 0 }
          [StreamOutcome.exhausted [1, 2], StreamOutcome.failed [3]]).1 =
        (List.map StreamOutcome.events
          [StreamOutcome.exhausted [1, 2], StreamOutcome.failed ([3] : List Nat)]).flatten ∧
      ∀ events : List Nat,
        listenIteration { attempt := 0 } (StreamOutcome.failed events) =
          (events, { attempt := 0 }, true) :=
  listener_attempt_counts_exhaustions { attempt := 0 }
    [StreamOutcome.exhausted [1, 2], StreamOutcome.failed [3]]

/-- C6: for every schedule of timeout and interrupt events and every list of
source items, the derived stream consists of an in-order prefix of the source
items followed by at most one interrupt value, which, when present, is the
last element: source items always come before the interrupt, and nothing is
yielded after it. -/
theorem interruptable_trace_shape {T I : Type}
    (sched : List (Bool × Option I)) (source : List T) :
    ∃ k : Nat, ∃ iv : Option I,
      InterruptableAgen sched source =
        (source.take k).map Sum.inl ++
          (match iv with | some v => [Sum.inr v] | none => []) := by
  induction sched generalizing source with
  | nil => exact ⟨0, none, by simp [InterruptableAgen]⟩
  | cons p rest ih =>
    obtain ⟨tmo, iv⟩ := p
    cases tmo with
    | true =>
      cases iv with
      | some v => exact ⟨0, some v, by simp [InterruptableAgen]⟩
      | none =>
        obtain ⟨k, jv, h⟩ := ih source
        exact ⟨k, jv, by simp [InterruptableAgen, h]⟩
    | false =>
      cases source with
      | nil => exact ⟨0, none, by simp [InterruptableAgen]⟩
      | cons t ts =>
        cases iv with
        | some v => exact ⟨1, some v, by simp [InterruptableAgen]⟩
        | none =>
          obtain ⟨k, jv, h⟩ := ih ts
          exact ⟨k + 1, jv, by simp [InterruptableAgen, h]⟩

/-- Witness for C6 on a concrete schedule and source. -/
theorem interruptable_trace_witness :
    ∃ k : Nat, ∃ iv : Option Nat,
      InterruptableAgen [(false, none), (true, some 9)] [5, 6] =
        (([5, 6] : List Nat).take k).map Sum.inl ++
          (iv.elim [] fun v => [Sum.inr v]) := by
  obtain ⟨k, iv, h⟩ :=
    interruptable_trace_shape [(false, none), (true, some 9)] [5, 6]
  refine ⟨k, iv, ?_⟩
  rw [h]
  cases iv <;> rfl

/-- C7 counterexample: on a schedule in which no wait ever times out (every
first component is `false`) and an interrupt is already queued, the
combinator still yields the interrupt value, right after the first source
item and while the source has more items to deliver: the interrupt check is
not gated on a timeout. -/
theorem interrupt_consulted_without_timeout :
    (∀ p ∈ ([(false, some 7)] : List (Bool × Option Nat)), p.1 = false) ∧
      InterruptableAgen [(false, some 7)] ([0, 1] : List Nat) =
        [Sum.inl 0, Sum.inr 7] := by
  constructor <;> decide

/-- C7 amended: the interrupt queue is consulted on every loop iteration,
both after a timed-out wait and immediately after yielding a source item (the
two `with suppress` blocks run in sequence), so a pending interrupt is
delivered at the very iteration it is found — after at most one further
source item — even when every source item arrives within the timeout; only
source exhaustion skips the check.  Interruption latency is thus still
bounded by one iteration, but interruption can preempt a live stream. -/
theorem interrupt_checked_every_iteration {T I : Type} (tmo : Bool) (v : I)
    (rest : List (Bool × Option I)) (source : List T) :
    InterruptableAgen ((tmo, some v) :: rest) source =
      if tmo then [Sum.inr v]
      else
        match source with
        | [] => []
        | t :: _ => [Sum.inl t, Sum.inr v] := by
  cases tmo <;> cases source <;> rfl

/-- Witness for the amended C7: no timeout, pending interrupt, live source. -/
theorem interrupt_checked_witness :
    InterruptableAgen [(false, some 7)] ([0, 1] : List Nat) =
      if false then [Sum.inr 7]
      else
        match ([0, 1] : List Nat) with
        | [] => []
        | t :: _ => [Sum.inl t, Sum.inr 7] :=
  interrupt_checked_every_iteration false 7 [] [0, 1]

/-- Helper for C8: the run of `ForeverAgen` over a factory that yields
`[a, b]` and then raises a whitelisted exception, starting at an arbitrary
round index. -/
theorem ForeverAgen_raised_blocks {T E : Type} (a b : T) (e : Nat → E)
    (wl : E → Bool) (hwl : ∀ i, wl (e i) = true) :
    ∀ n r : Nat,
      ForeverAgen (fun round => AgenOutcome.raised [a, b] (e round)) wl r n =
        (((List.range' r n).map
            fun i => [Sum.inl a, Sum.inl b, Sum.inr (e i)]).flatten, none) := by
  intro n
  induction n with
  | zero => intro r; rfl
  | succ n ih =>
    intro r
    rw [List.range'_succ]
    simp [ForeverAgen, hwl r, ih (r + 1)]

/-- C8: a factory whose every invocation yields `a` then `b` and then raises
a whitelisted exception produces, over any number `n` of observed rounds, the
trace `[a, b, e 0, a, b, e 1, ...]` — each fresh stream's items in order,
then the exception value itself as a stream element — and the combinator
never terminates (the second component stays `none`: no exception is
re-raised, and the model of the `while True` loop has no normal exit at
all). -/
theorem forever_whitelisted_cycles {T E : Type} (a b : T) (e : Nat → E)
    (wl : E → Bool) (hwl : ∀ i, wl (e i) = true) (n : Nat) :
    ForeverAgen (fun round => AgenOutcome.raised [a, b] (e round)) wl 0 n =
      (((List.range n).map
          fun i => [Sum.inl a, Sum.inl b, Sum.inr (e i)]).flatten, none) := by
  rw [List.range_eq_range']
  exact ForeverAgen_raised_blocks a b e wl hwl n 0

/-- Witness for C8: items `0, 1`, exception values `100 + round`, two rounds
observed. -/
theorem forever_whitelisted_witness :
    ForeverAgen (fun round => AgenOutcome.raised [0, 1] (100 + round))
        (fun _ => true) 0 2 =
      ([Sum.inl 0, Sum.inl 1, Sum.inr 100, Sum.inl 0, Sum.inl 1, Sum.inr 101],
        (none : Option Nat)) :=
  (forever_whitelisted_cycles 0 1 (fun round => 100 + round) (fun _ => true)
    (fun _ => rfl) 2).trans (by decide)

/-- C9: the queue adapter yields the queued items in order for each of the
three supported queue classes (acknowledging each item with `task_done()` for
the first two) and fails with the unsupported-type error, yielding nothing,
for every other queue class. -/
theorem queueAgen_dispatch {T : Type} (q : PyQueue T) :
    QueueAgen q =
      match q.kind with
      | QueueKind.unsupported tn =>
        Except.error ("unsupported queue type: " ++ tn)
      | QueueKind.mpQueue => Except.ok (q.items, 0)
      | _ => Except.ok (q.items, q.items.length) := by
  have hd : ∀ (ack : Bool) (xs : List T),
      drainLoop ack xs = (xs, if ack then xs.length else 0) := by
    intro ack xs
    induction xs with
    | nil => cases ack <;> rfl
    | cons x xs ih => cases ack <;> simp [drainLoop, ih, Nat.add_comm]
  cases q with
  | mk kind items => cases kind <;> simp [QueueAgen, hd]

/-- Witness for C9: one supported and one unsupported concrete queue. -/
theorem queueAgen_dispatch_witness :
    QueueAgen ({ kind := QueueKind.asyncioQueue, items := [1, 2, 3] } : PyQueue Nat) =
        Except.ok ([1, 2, 3], 3) ∧
      QueueAgen ({ kind := QueueKind.unsupported "dict", items := [] } : PyQueue Nat) =
        Except.error "unsupported queue type: dict" := by
  constructor
  · exact (queueAgen_dispatch
      ({ kind := QueueKind.asyncioQueue, items := [1, 2, 3] } : PyQueue Nat)).trans
      (by decide)
  · exact (queueAgen_dispatch
      ({ kind := QueueKind.unsupported "dict", items := [] } : PyQueue Nat)).trans
      (by decide)

/-- C10: when the very first heartbeat round's RPC fails, the heartbeater
does *not* record the timestamp: the `AttributeError` from the misspelled
handler class terminates the loop with `last_heartbeat` still `-1` (first and
second conjuncts), so the polling barrier in `start()` is never released and
`start()` never returns (third conjunct).  The claimed
record-regardless-of-failure behaviour holds only for the success path. -/
theorem first_heartbeat_failure_never_records (hbInterval now : Int)
    (respWorkerId : String) :
    heartbeatIteration hbInterval initHB now true =
        HBStep.raised (PyExc.attributeError rpcErrorsMsg) initHB ∧
      initHB.last_heartbeat < 0 ∧
      start hbInterval respWorkerId [(now, true)] = none := by
  have hattr : grpcHasAttr "RpcErrors" = false := by decide
  refine ⟨by simp [heartbeatIteration, hattr], by decide, ?_⟩
  simp [start, startLoop, heartbeatIteration, hattr, register, initWorker]

end HatchetModel
